import Mathlib

/-!
Shallow embedding of `demo_2d_finite_Dirichlet_GMM.py`: a script that
generates a labeled 2-D dataset from six Gaussian components, fits a
Bayesian Gaussian mixture (external sklearn capability) to it in a
convergence loop, and renders contours and a weight bar chart after each
fit call.  Real numbers are modelled as rationals; the random draws of
`numpy.random.RandomState` are modelled as an abstract stream determined
by the seed.
-/

set_option maxRecDepth 100000

namespace DemoDPGMM

/-- Source line 87: `random_state, n_components, n_features = 2, 6, 2`. -/
def random_state : Nat := 2

def n_components : Nat := 6

def n_features : Nat := 2

/-- Source line 88: the fixed 6-entry color palette. -/
def colors : List String :=
  ["#0072B2", "#F0E442", "#D55E00", "#EE82EE", "#A0522D", "#2E8B57"]

/-- Source line 96: `samples = np.array([300, 500, 400, 400, 400, 300])`. -/
def samples : List Nat := [300, 500, 400, 400, 400, 300]

/-- Number of samples drawn for generating component `j` (`samples[j]`). -/
def sampleCount (j : Nat) : Nat := samples.getD j 0

/-- Source line 113: `SMALL_PROBS = 0`, the negligible-weight threshold. -/
def SMALL_PROBS : ℚ := 0

/-- Source line 110: the `[1]` list of weight-concentration priors the
outer loop iterates over; its length is the subplot column count. -/
def concentrations_prior : List ℚ := [1]

/-- Source lines 117-119: `X = np.vstack([rng.multivariate_normal(means[j],
covars[j], samples[j]) for j in range(n_components)])`.  The point type and
the multivariate-normal draws are abstracted: `draw j i` is the i-th point
of the batch drawn for component `j`. -/
def generateX {α : Type} (draw : Nat → Nat → α) : List α :=
  (List.range n_components).flatMap (fun j => (List.range (sampleCount j)).map (draw j))

/-- Source lines 120-121: `y = np.concatenate([j * np.ones(samples[j],
dtype=int) for j in range(n_components)])`. -/
def generateY : List Nat :=
  (List.range n_components).flatMap (fun j => List.replicate (sampleCount j) j)

/-- The Dataset of the spec: points of `X` paired positionally with
labels of `y`. -/
def generateDataset {α : Type} (draw : Nat → Nat → α) : List α × List Nat :=
  (generateX draw, generateY)

/-- Source line 116: `rng = np.random.RandomState(random_state)` — the whole
draw stream is a function of the seed alone.  A run of the Data Generator
builds the stream from the seed and then generates the Dataset. -/
def runDataGenerator {α : Type} (stream : Nat → Nat → Nat → α) (seed : Nat) :
    List α × List Nat :=
  generateDataset (stream seed)

/-- Modelled from the spec: the Mixture Estimator is an external capability
(spec section 4.2; the missing code is sklearn BayesianGaussianMixture.fit,
source line 106).  A fit call updates the MixtureState and exposes per-slot
weights obtained by normalizing the positive unnormalized slot masses of
the variational posterior over the `K` component slots. -/
def fitWeights (K : Nat) (raw : Fin K → ℚ) : Fin K → ℚ :=
  fun k => raw k / ∑ j, raw j

/-- Weights of the MixtureState after the n-th fit call of the convergence
loop, where `raw n` is the vector of unnormalized slot masses produced by
the n-th variational update. -/
def fitLoopWeights (K : Nat) (raw : Nat → Fin K → ℚ) (n : Nat) : Fin K → ℚ :=
  fitWeights K (raw n)

/-- Source line 48: `weights = estimator.weights_[np.where(estimator.weights_
> SMALL_PROBS)]` — keep only the weights strictly above the threshold. -/
def nonNegligibleWeights (ws : List ℚ) : List ℚ :=
  ws.filter (fun w => decide (SMALL_PROBS < w))

/-- Source lines 49-53: `for k, w in enumerate(weights)` draws bar `k` of
height `w` with the text label `w * 100.` percent. -/
def weightBarsAux (k : Nat) : List ℚ → List (Nat × ℚ × ℚ)
  | [] => []
  | w :: rest => (k, w, 100 * w) :: weightBarsAux (k + 1) rest

/-- The bar chart of `plot_results`: one (position, height, label) bar per
non-negligible weight. -/
def weightBars (ws : List ℚ) : List (Nat × ℚ × ℚ) :=
  weightBarsAux 0 (nonNegligibleWeights ws)

/-- Source lines 42-58: `plot_results` reads `estimator.weights_` and never
writes it; modelled as returning the drawn bars together with the weight
vector it leaves behind. -/
def plot_results (ws : List ℚ) : List (Nat × ℚ × ℚ) × List ℚ :=
  (weightBars ws, ws)

/-- Observable renderer events of one run: an Init render (scatter of the
raw data), a non-blocking `plt.pause`, a blocking `raw_input` confirmation
(Wait), a call to `estimator.fit`, the one-off mesh computation, a Fitted
render (`plot_results`), and the final convergence printout. -/
inductive Event where
  | initRender
  | pauseEv
  | wait
  | fitCall
  | meshCompute
  | fittedRender
  | printConv
deriving DecidableEq

/-- Source lines 136-147, in order: init_plots (line 136), plt.pause (138),
raw_input (139), estimator.fit (140), init_plots with generate_mesh=True
(143, scatter then mesh), plot_results (145), plt.pause (146), raw_input
(147). -/
def preEvents : List Event :=
  [Event.initRender, Event.pauseEv, Event.wait, Event.fitCall,
   Event.initRender, Event.meshCompute, Event.fittedRender,
   Event.pauseEv, Event.wait]

/-- Source lines 148-155, one iteration of `while not estimator.converged_`:
estimator.fit (149), init_plots without a mesh (152), plot_results (154),
plt.pause (155) — and no blocking prompt. -/
def loopEvents : List Event :=
  [Event.fitCall, Event.initRender, Event.fittedRender, Event.pauseEv]

/-- Source lines 156-157: print the convergence flag, then a final
raw_input. -/
def postEvents : List Event := [Event.printConv, Event.wait]

/-- Event trace of one (title, estimator, prior) run in which the while
loop of line 148 executes `n` iterations before the convergence flag is
seen true. -/
def trace (n : Nat) : List Event :=
  preEvents ++ ((List.replicate n loopEvents).flatten ++ postEvents)

/-- The separation property claimed of the renderer: between any two
consecutive Fitted renders of a trace there is a blocking Wait. -/
def waitSeparatesFitted (t : List Event) : Prop :=
  ∀ i, i < t.length → ∀ j, j < t.length → i < j →
    t.getD i Event.pauseEv = Event.fittedRender →
    t.getD j Event.pauseEv = Event.fittedRender →
    (∀ k, k < j → i < k → t.getD k Event.pauseEv ≠ Event.fittedRender) →
    ∃ k, k < j ∧ i < k ∧ t.getD k Event.pauseEv = Event.wait

/-- The renderer state machine claimed by the spec: every pair of
consecutive Fitted renders is separated by a Wait, and the trace ends in a
terminal Wait after convergence. -/
def rendererClaim (t : List Event) : Prop :=
  waitSeparatesFitted t ∧ t.getLast? = some Event.wait

/-- Source line 80: `h = max((x_max-x_min)/50., (y_max-y_min)/50.)` for the
fixed view bounds x in [-4, 4], y in [-6, 6] set at lines 65-66. -/
def meshStep : ℚ := max ((4 - (-4)) / 50) ((6 - (-6)) / 50)

/-- Model of `np.arange(start, stop, step)` for a positive step: the values
`start + k * step` for the `ceil((stop - start) / step)` indices k. -/
def arange (start stop step : ℚ) : List ℚ :=
  (List.range (⌈(stop - start) / step⌉).toNat).map
    (fun k : Nat => start + (k : ℚ) * step)

/-- Source lines 74-83: init_plots starts from `xx = []`, `yy = []` and
computes the meshgrid axes over the fixed view bounds only when its
`generate_mesh` flag is true. -/
def init_plots_mesh (generate_mesh : Bool) : List ℚ × List ℚ :=
  if generate_mesh then (arange (-4) 4 meshStep, arange (-6) 6 meshStep)
  else ([], [])

/-- The Mesh computed at source lines 143-144, the only call of init_plots
with `generate_mesh=True`. -/
def theMesh : List ℚ × List ℚ := init_plots_mesh true

/-- Source lines 152-154: each loop iteration rebinds only ax1 and ax2 (the
returned mesh slots are discarded into underscores), so the xx, yy passed
to plot_results after n loop iterations are still the initial Mesh. -/
def meshVar : Nat → List ℚ × List ℚ
  | 0 => theMesh
  | n + 1 => meshVar n

/-- Modelled from matplotlib: `mcd.CSS4_COLORS` (imported at source line 12
and read at line 31) is the fixed dictionary of the 148 CSS4 named colors;
only its size matters here, so its values are modelled as numbered
names. -/
def css4_values : List String :=
  (List.range 148).map (fun i => "css" ++ toString i)

/-- Python slice `xs[0:stop:4]` for a nonnegative stop: every 4th element
below `min stop xs.length`. -/
def pySliceStep4 (xs : List String) (stop : Nat) : List String :=
  (List.range ((min stop xs.length + 3) / 4)).filterMap (fun t => xs[4 * t]?)

/-- Source lines 28-31 of plot_contours: when the component count m exceeds
the palette size, extend the palette with
`list(mcd.CSS4_COLORS.values())[0:4*(new_clusters-1):4]` where
`new_clusters = m - len(colors)`. -/
def new_colors (m : Nat) : List String :=
  if colors.length < m then
    colors ++ pySliceStep4 css4_values (4 * (m - colors.length - 1))
  else colors

/-- Python and numpy sequence indexing: nonnegative indices count from the
front, negative indices from the back. -/
def pyGet (xs : List String) (i : Int) : Option String :=
  if 0 ≤ i then xs[i.toNat]?
  else if -i ≤ (xs.length : Int) then xs[xs.length - (-i).toNat]? else none

/-- Source line 38: component n is drawn with color `new_colors[n - 1]`. -/
def componentColor (m n : Nat) : Option String :=
  pyGet (new_colors m) ((n : Int) - 1)

/-- Source lines 19-24: the estimator scoring interface — score_samples
(the fitted mixture log-density) and the scipy multivariate normal pdf of
the fitted component rows — abstracted as functions carried by the fitted
estimator. -/
structure Estimator where
  scoreSamples : ℚ × ℚ → ℚ
  componentPdf : Nat → ℚ × ℚ → ℚ

/-- Source lines 19-20: score_fn_dpgmm returns the mixture log-density at
one point; the estimator comes back unchanged. -/
def score_fn_dpgmm (x : ℚ × ℚ) (estimator : Estimator) : ℚ × Estimator :=
  (estimator.scoreSamples x, estimator)

/-- Source lines 23-24: score_fn_mvn returns the Gaussian density of
component n (its fitted mean and covariance rows) at one point; the
estimator comes back unchanged. -/
def score_fn_mvn (x : ℚ × ℚ) (estimator : Estimator) (n : Nat) : ℚ × Estimator :=
  (estimator.componentPdf n x, estimator)

/-- Source lines 32 and 36: `np.c_[xx.ravel(), yy.ravel()]` lists the grid
point `(xs[j], ys[i])` for every row i and column j, in row-major order. -/
def ravelPoints (xs ys : List ℚ) : List (ℚ × ℚ) :=
  ys.flatMap (fun yv => xs.map (fun xv => (xv, yv)))

/-- Source lines 27-38: plot_contours evaluates the mixture score at every
point of the flattened meshgrid (line 32, reshaped to the grid at line
33), then for every component n of the m slots evaluates that component
density at every mesh point (line 36); it returns the computed arrays
together with the estimator and mesh it leaves behind unchanged. -/
def plot_contours (est : Estimator) (m : Nat) (xs ys : List ℚ) :
    List ℚ × List (List ℚ) × Estimator × (List ℚ × List ℚ) :=
  ((ravelPoints xs ys).map (fun p => (score_fn_dpgmm p est).1),
    (List.range m).map (fun n => (ravelPoints xs ys).map (fun p => (score_fn_mvn p est n).1)),
    est, (xs, ys))

/-- One redraw of the convergence loop (iteration index `i`) recomputes the
contour data from scratch by calling plot_contours afresh; nothing is
cached between iterations. -/
def redraw (est : Estimator) (m : Nat) (xs ys : List ℚ) (_iter : Nat) :
    List ℚ × List (List ℚ) × Estimator × (List ℚ × List ℚ) :=
  plot_contours est m xs ys

/-- The configuration constants of the script. -/
structure Config where
  randomSeed : Nat
  nComponents : Nat
  nSlots : Nat
  priorType : String
  meanPrecisionPrior : ℚ
  regCovar : ℚ
  initParams : String
  maxIter : Nat
  tol : ℚ
  smallProbs : ℚ
  figWidth : ℚ
  figHeight : ℚ
  gridRows : Nat
  gridCols : Nat

/-- Source lines 87, 105-113, 127-130: the literal configuration of the
script — seed 2, 6 true components, `3 * n_components` estimator slots,
Dirichlet-distribution prior, mean-precision prior 0.8, `reg_covar=0`,
random initialization, `max_iter=5`, `tol=1e-5`, threshold `SMALL_PROBS`,
figure size `(4.7 * 3, 8)`, and a `(3, len(concentrations_prior))` grid. -/
def theConfig : Config :=
  { randomSeed := random_state
    nComponents := n_components
    nSlots := 3 * n_components
    priorType := "dirichlet_distribution"
    meanPrecisionPrior := 8 / 10
    regCovar := 0
    initParams := "random"
    maxIter := 5
    tol := 1 / 100000
    smallProbs := SMALL_PROBS
    figWidth := 47 / 10 * 3
    figHeight := 8
    gridRows := 3
    gridCols := concentrations_prior.length }

lemma generateY_eq :
    generateY =
      List.replicate 300 0 ++ (List.replicate 500 1 ++ (List.replicate 400 2 ++
        (List.replicate 400 3 ++ (List.replicate 400 4 ++
          List.replicate 300 5)))) := rfl

lemma generateX_eq {α : Type} (draw : Nat → Nat → α) :
    generateX draw =
      (List.range 300).map (draw 0) ++ ((List.range 500).map (draw 1) ++
        ((List.range 400).map (draw 2) ++ ((List.range 400).map (draw 3) ++
          ((List.range 400).map (draw 4) ++
            (List.range 300).map (draw 5))))) := rfl

/-- C1: for sample counts [300, 500, 400, 400, 400, 300] the Dataset has
exactly 2300 = sum of the counts points, exactly `samples[j]` points carry
label `j` for each j in 0..5, and the rows are grouped by source component
in order: the block of component 0 first, then component 1, and so on. -/
theorem C1_dataset_structure {α : Type} (draw : Nat → Nat → α) :
    samples.sum = 2300 ∧
    generateY.length = 2300 ∧
    (generateX draw).length = 2300 ∧
    (∀ j, j < 6 → generateY.count j = sampleCount j) ∧
    generateY =
      List.replicate 300 0 ++ (List.replicate 500 1 ++ (List.replicate 400 2 ++
        (List.replicate 400 3 ++ (List.replicate 400 4 ++
          List.replicate 300 5)))) ∧
    generateX draw =
      (List.range 300).map (draw 0) ++ ((List.range 500).map (draw 1) ++
        ((List.range 400).map (draw 2) ++ ((List.range 400).map (draw 3) ++
          ((List.range 400).map (draw 4) ++
            (List.range 300).map (draw 5))))) := by
  refine ⟨by decide, ?_, ?_, ?_, generateY_eq, generateX_eq draw⟩
  · rw [generateY_eq]
    simp
  · rw [generateX_eq draw]
    simp
  · intro j hj
    interval_cases j <;>
      · rw [generateY_eq]
        simp only [List.count_append, List.count_replicate]
        norm_num [sampleCount, samples]

/-- Witness for C1 at the concrete label 3 and a concrete draw stream. -/
theorem C1_witness : generateY.count 3 = sampleCount 3 :=
  (C1_dataset_structure (fun _ i => i)).2.2.2.1 3 (by norm_num)

/-- C2: two runs of the Data Generator whose `RandomState` streams come from
the same seed produce an identical Dataset: same points, same labels, same
order. -/
theorem C2_generator_deterministic {α : Type} (stream : Nat → Nat → Nat → α)
    (seed₁ seed₂ : Nat) (h : seed₁ = seed₂) :
    runDataGenerator stream seed₁ = runDataGenerator stream seed₂ := by
  rw [h]

/-- Witness for C2 at the concrete seed 2 used by the script. -/
theorem C2_witness :
    runDataGenerator (fun _ _ _ => (0 : Nat)) 2 =
      runDataGenerator (fun _ _ _ => (0 : Nat)) 2 :=
  C2_generator_deterministic (fun _ _ _ => (0 : Nat)) 2 2 rfl

/-- C3: after every fit call of the convergence loop the weights of the
MixtureState (18 slots) sum to 1 up to the 1e-6 tolerance — here exactly,
whenever the unnormalized slot masses of that fit are positive. -/
theorem C3_weights_sum_one (raw : Nat → Fin 18 → ℚ) (n : Nat)
    (hpos : ∀ k, 0 < raw n k) :
    |(∑ k, fitLoopWeights 18 raw n k) - 1| ≤ 1 / 1000000 := by
  have hsum : 0 < ∑ j, raw n j :=
    Finset.sum_pos (fun j _ => hpos j) ⟨0, Finset.mem_univ 0⟩
  have h1 : (∑ k, fitLoopWeights 18 raw n k) = 1 := by
    simp only [fitLoopWeights, fitWeights]
    rw [← Finset.sum_div, div_self (ne_of_gt hsum)]
  rw [h1]
  norm_num

/-- Witness for C3 with all slot masses equal to 1, after the first fit. -/
theorem C3_witness :
    |(∑ k, fitLoopWeights 18 (fun _ _ => 1) 0 k) - 1| ≤ 1 / 1000000 :=
  C3_weights_sum_one (fun _ _ => 1) 0 (fun _ => by norm_num)

lemma weightBarsAux_length (l : List ℚ) : ∀ k, (weightBarsAux k l).length = l.length := by
  induction l with
  | nil => intro k; rfl
  | cons w rest ih => intro k; simpa [weightBarsAux] using ih (k + 1)

lemma weightBarsAux_getD (l : List ℚ) :
    ∀ k i, i < l.length →
      (weightBarsAux k l).getD i (0, 0, 0) =
        (k + i, l.getD i 0, 100 * l.getD i 0) := by
  induction l with
  | nil => intro k i h; simp at h
  | cons w rest ih =>
      intro k i h
      cases i with
      | zero => simp [weightBarsAux]
      | succ i =>
          have hi : i < rest.length := by simpa using h
          have := ih (k + 1) i hi
          simpa [weightBarsAux, Nat.add_assoc, Nat.add_comm 1 i] using this

/-- C6: the bar chart contains exactly the MixtureState weights strictly
above the threshold `SMALL_PROBS = 0`: membership in the chart is
equivalent to being a weight above the threshold, every surviving weight
gets a bar carrying a `w * 100` percent label at its enumeration index,
and `plot_results` leaves the weight vector itself unchanged. -/
theorem C6_bar_chart (ws : List ℚ) :
    (∀ w, w ∈ nonNegligibleWeights ws ↔ w ∈ ws ∧ SMALL_PROBS < w) ∧
    (weightBars ws).length = (nonNegligibleWeights ws).length ∧
    (∀ i, i < (nonNegligibleWeights ws).length →
      (weightBars ws).getD i (0, 0, 0) =
        (i, (nonNegligibleWeights ws).getD i 0,
          100 * (nonNegligibleWeights ws).getD i 0)) ∧
    (plot_results ws).2 = ws := by
  refine ⟨?_, weightBarsAux_length _ 0, ?_, rfl⟩
  · intro w
    simp [nonNegligibleWeights, List.mem_filter]
  · intro i hi
    simpa using weightBarsAux_getD (nonNegligibleWeights ws) 0 i hi

/-- Witness for C6 on the weight vector [1/2, 0, 1/3]: the zero weight is
dropped and bar 1 carries weight 1/3 with label 100 · (1/3). -/
theorem C6_witness :
    (weightBars [(1 : ℚ) / 2, 0, 1 / 3]).getD 1 (0, 0, 0) =
      (1, (nonNegligibleWeights [(1 : ℚ) / 2, 0, 1 / 3]).getD 1 0,
        100 * (nonNegligibleWeights [(1 : ℚ) / 2, 0, 1 / 3]).getD 1 0) :=
  (C6_bar_chart [(1 : ℚ) / 2, 0, 1 / 3]).2.2.1 1
    (by norm_num [nonNegligibleWeights, SMALL_PROBS, List.filter])

/-- C9: the configuration constants of the script equal the specified
values: seed 2, 6 true components, 18 estimator slots, Dirichlet
distribution prior, mean-precision prior 0.8, zero covariance
regularization, random initialization, per-call iteration cap 5,
tolerance 1e-5, negligible-weight threshold 0, figure size 14.1 by 8,
and a 3-row by 1-column subplot grid. -/
theorem C9_configuration :
    theConfig.randomSeed = 2 ∧
    theConfig.nComponents = 6 ∧
    theConfig.nSlots = 18 ∧
    theConfig.priorType = "dirichlet_distribution" ∧
    theConfig.meanPrecisionPrior = 8 / 10 ∧
    theConfig.regCovar = 0 ∧
    theConfig.initParams = "random" ∧
    theConfig.maxIter = 5 ∧
    theConfig.tol = 1 / 100000 ∧
    theConfig.smallProbs = 0 ∧
    theConfig.figWidth = 141 / 10 ∧
    theConfig.figHeight = 8 ∧
    theConfig.gridRows = 3 ∧
    theConfig.gridCols = 1 := by
  refine ⟨rfl, rfl, rfl, rfl, rfl, rfl, rfl, rfl, rfl, rfl, ?_, rfl, rfl, rfl⟩
  norm_num [theConfig]

lemma getLast?_trace (n : Nat) : (trace n).getLast? = some Event.wait := by
  have h : trace n = (preEvents ++ (List.replicate n loopEvents).flatten) ++ postEvents := by
    simp [trace, List.append_assoc]
  rw [h, List.getLast?_append]
  rfl

/-- C4 counterexample: in the run whose convergence loop executes twice,
the two loop Fitted renders are consecutive and no Wait lies between them
(the loop body of source lines 148-155 contains no raw_input), so the
claimed renderer state machine is violated. -/
theorem C4_counterexample : ¬ rendererClaim (trace 2) := by
  intro hcl
  have hex :=
    hcl.1 11 (by decide) 15 (by decide) (by decide) (by decide) (by decide)
      (by decide)
  obtain ⟨k, hk15, h11k, hw⟩ := hex
  interval_cases k <;> exact Event.noConfusion hw

/-- C4 amended: a Wait separates the first Fitted render from the second,
and a terminal Wait ends every run after the convergence flag becomes
true; but Fitted renders inside the convergence loop follow one another
with only a non-blocking pause between them. -/
theorem C4_amended (n : Nat) (h : 1 ≤ n) :
    (trace n).getD 6 Event.pauseEv = Event.fittedRender ∧
    (trace n).getD 8 Event.pauseEv = Event.wait ∧
    (trace n).getD 11 Event.pauseEv = Event.fittedRender ∧
    (∀ k, 6 < k → k < 11 → (trace n).getD k Event.pauseEv ≠ Event.fittedRender) ∧
    (trace n).getLast? = some Event.wait := by
  cases n with
  | zero => exact absurd h (by norm_num)
  | succ m =>
      refine ⟨rfl, rfl, rfl, ?_, getLast?_trace (m + 1)⟩
      intro k h1 h2
      interval_cases k <;> exact fun hk => Event.noConfusion hk

/-- Witness for C4 amended at the two-iteration run. -/
theorem C4_amended_witness :
    (trace 2).getD 6 Event.pauseEv = Event.fittedRender ∧
    (trace 2).getD 8 Event.pauseEv = Event.wait ∧
    (trace 2).getD 11 Event.pauseEv = Event.fittedRender ∧
    (∀ k, 6 < k → k < 11 → (trace 2).getD k Event.pauseEv ≠ Event.fittedRender) ∧
    (trace 2).getLast? = some Event.wait :=
  C4_amended 2 (by norm_num)

lemma meshStep_eq : meshStep = 6 / 25 := by
  rw [meshStep, max_eq_right (by norm_num : ((4 : ℚ) - -4) / 50 ≤ ((6 : ℚ) - -6) / 50)]
  norm_num

lemma xCeil : (⌈((4 : ℚ) - -4) / meshStep⌉) = 34 := by
  rw [meshStep_eq, Int.ceil_eq_iff]
  norm_num

lemma yCeil : (⌈((6 : ℚ) - -6) / meshStep⌉) = 50 := by
  rw [meshStep_eq, Int.ceil_eq_iff]
  norm_num

lemma arange_length (start stop step : ℚ) :
    (arange start stop step).length = (⌈(stop - start) / step⌉).toNat := by
  simp only [arange, List.length_map, List.length_range]

lemma arange_getD (start stop step : ℚ) (k : Nat)
    (h : k < (⌈(stop - start) / step⌉).toNat) :
    (arange start stop step).getD k 0 = start + (k : ℚ) * step := by
  simp only [arange, List.getD_eq_getElem?_getD, List.getElem?_map,
    List.getElem?_range h, Option.map_some', Option.getD_some]

lemma meshX_bounds : ∀ v ∈ theMesh.1, -4 ≤ v ∧ v < 4 := by
  intro v hv
  rw [show theMesh.1 = arange (-4) 4 meshStep from rfl, arange] at hv
  obtain ⟨k, hk, rfl⟩ := List.mem_map.1 hv
  rw [List.mem_range, xCeil] at hk
  have hk34 : k < 34 := by simpa using hk
  have h0 : (0 : ℚ) ≤ (k : ℚ) := Nat.cast_nonneg k
  have h33 : (k : ℚ) ≤ 33 := by exact_mod_cast Nat.le_of_lt_succ hk34
  rw [meshStep_eq]
  constructor
  · nlinarith
  · nlinarith

lemma meshY_bounds : ∀ v ∈ theMesh.2, -6 ≤ v ∧ v < 6 := by
  intro v hv
  rw [show theMesh.2 = arange (-6) 6 meshStep from rfl, arange] at hv
  obtain ⟨k, hk, rfl⟩ := List.mem_map.1 hv
  rw [List.mem_range, yCeil] at hk
  have hk50 : k < 50 := by simpa using hk
  have h0 : (0 : ℚ) ≤ (k : ℚ) := Nat.cast_nonneg k
  have h49 : (k : ℚ) ≤ 49 := by exact_mod_cast Nat.le_of_lt_succ hk50
  rw [meshStep_eq]
  constructor
  · nlinarith
  · nlinarith

lemma meshVar_eq (n : Nat) : meshVar n = theMesh := by
  induction n with
  | zero => rfl
  | succ m ih => simpa [meshVar] using ih

lemma count_flatten_replicate (n : Nat) (l : List Event) (e : Event) :
    ((List.replicate n l).flatten).count e = n * l.count e := by
  induction n with
  | zero => simp
  | succ m ih =>
      simp only [List.replicate_succ, List.flatten_cons, List.count_append,
        ih, Nat.succ_mul]
      ring

lemma trace_count_mesh (m : Nat) : (trace m).count Event.meshCompute = 1 := by
  have h1 : preEvents.count Event.meshCompute = 1 := by decide
  have h2 : loopEvents.count Event.meshCompute = 0 := by decide
  have h3 : postEvents.count Event.meshCompute = 0 := by decide
  simp [trace, List.count_append, count_flatten_replicate, h1, h2, h3]

/-- C7: the Mesh is the pair of `np.arange` axes over the fixed view bounds
x in [-4, 4), y in [-6, 6) with the uniform step max((x_max-x_min)/50,
(y_max-y_min)/50) = 6/25 (34 x-values, 50 y-values, the k-th value being
start + k*step); it is computed exactly once per run — the single
meshCompute event sits after the first fit call and immediately before the
first Fitted render — and the mesh variable seen by every later contour
evaluation of the loop is unchanged from it. -/
theorem C7_mesh_once (n m : Nat) :
    meshVar n = theMesh ∧
    theMesh = (arange (-4) 4 meshStep, arange (-6) 6 meshStep) ∧
    meshStep = max ((4 - (-4)) / 50) ((6 - (-6)) / 50) ∧
    meshStep = 6 / 25 ∧
    theMesh.1.length = 34 ∧
    theMesh.2.length = 50 ∧
    (∀ k, k < 34 → theMesh.1.getD k 0 = -4 + (k : ℚ) * meshStep) ∧
    (∀ k, k < 50 → theMesh.2.getD k 0 = -6 + (k : ℚ) * meshStep) ∧
    (∀ v ∈ theMesh.1, -4 ≤ v ∧ v < 4) ∧
    (∀ v ∈ theMesh.2, -6 ≤ v ∧ v < 6) ∧
    (trace m).count Event.meshCompute = 1 ∧
    (trace m).getD 3 Event.pauseEv = Event.fitCall ∧
    (trace m).getD 5 Event.pauseEv = Event.meshCompute ∧
    (trace m).getD 6 Event.pauseEv = Event.fittedRender ∧
    (∀ i, i < 5 → (trace m).getD i Event.pauseEv ≠ Event.meshCompute ∧
      (trace m).getD i Event.pauseEv ≠ Event.fittedRender) := by
  refine ⟨meshVar_eq n, rfl, rfl, meshStep_eq, ?_, ?_, ?_, ?_,
    meshX_bounds, meshY_bounds, trace_count_mesh m, rfl, rfl, rfl, ?_⟩
  · rw [show theMesh.1 = arange (-4) 4 meshStep from rfl, arange_length, xCeil]
    rfl
  · rw [show theMesh.2 = arange (-6) 6 meshStep from rfl, arange_length, yCeil]
    rfl
  · intro k hk
    have hb : k < (⌈((4 : ℚ) - -4) / meshStep⌉).toNat := by
      rw [xCeil]; exact hk
    exact arange_getD (-4) 4 meshStep k hb
  · intro k hk
    have hb : k < (⌈((6 : ℚ) - -6) / meshStep⌉).toNat := by
      rw [yCeil]; exact hk
    exact arange_getD (-6) 6 meshStep k hb
  · intro i hi
    interval_cases i <;>
      exact ⟨fun hc => Event.noConfusion hc, fun hc => Event.noConfusion hc⟩

/-- Witness for C7 at mesh index 10 and the three-iteration run. -/
theorem C7_witness : theMesh.1.getD 10 0 = -4 + (10 : ℚ) * meshStep :=
  (C7_mesh_once 3 2).2.2.2.2.2.2.1 10 (by norm_num)

/-- C5: evaluating the color-extension code at the script configuration of
18 component slots yields only 17 colors — fewer than the 18 components —
because the slice bound `4*(new_clusters-1)` drops one color; likewise
m = 7 yields 6 colors.  The extension therefore never reaches the claimed
length of at least m for m > 6. -/
theorem C5_extension_shortfall :
    (new_colors 18).length = 17 ∧ (new_colors 7).length = 6 := by
  constructor <;> decide

/-- C10: component n is drawn with the color at Python index n - 1; with 18
slots the extended list has 17 entries, every index n - 1 for n in 0..17
is in bounds (n = 0 wraps around to the last entry), so the contour loop
never performs an out-of-range color access even though the list holds
fewer colors than components. -/
theorem C10_color_index_in_bounds :
    (new_colors 18).length = 17 ∧
    (17 : Nat) < 18 ∧
    (∀ n, n < 18 → (componentColor 18 n).isSome = true) ∧
    componentColor 18 0 = (new_colors 18).getLast? := by
  refine ⟨by decide, by decide, ?_, by decide⟩
  intro n hn
  interval_cases n <;> decide

/-- Witness for C10 at component 5. -/
theorem C10_witness : (componentColor 18 5).isSome = true :=
  C10_color_index_in_bounds.2.2.1 5 (by norm_num)

lemma ravelPoints_length (xs ys : List ℚ) :
    (ravelPoints xs ys).length = ys.length * xs.length := by
  induction ys with
  | nil => simp [ravelPoints]
  | cons y ys ih =>
      show (xs.map (fun xv => (xv, y)) ++ ravelPoints xs ys).length =
        (y :: ys).length * xs.length
      rw [List.length_append, List.length_map, ih, List.length_cons]
      ring

lemma ravelPoints_getD (xs : List ℚ) :
    ∀ (ys : List ℚ) (i j : Nat), i < ys.length → j < xs.length →
      (ravelPoints xs ys).getD (i * xs.length + j) (0, 0) =
        (xs.getD j 0, ys.getD i 0) := by
  intro ys
  induction ys with
  | nil => intro i j hi hj; simp at hi
  | cons y ys ih =>
      intro i j hi hj
      cases i with
      | zero =>
          show (xs.map (fun xv => (xv, y)) ++ ravelPoints xs ys).getD
            (0 * xs.length + j) (0, 0) = (xs.getD j 0, (y :: ys).getD 0 0)
          rw [Nat.zero_mul, Nat.zero_add, List.getD_eq_getElem?_getD,
            List.getElem?_append_left (by simpa using hj),
            List.getElem?_map, List.getElem?_eq_getElem hj]
          simp [List.getD_eq_getElem?_getD, List.getElem?_eq_getElem hj]
      | succ i =>
          have hi2 : i < ys.length := by simpa using hi
          have hidx : (i + 1) * xs.length + j = xs.length + (i * xs.length + j) := by
            ring
          show (xs.map (fun xv => (xv, y)) ++ ravelPoints xs ys).getD
            ((i + 1) * xs.length + j) (0, 0) = (xs.getD j 0, (y :: ys).getD (i + 1) 0)
          rw [hidx, List.getD_eq_getElem?_getD,
            List.getElem?_append_right (by simp), List.length_map,
            Nat.add_sub_cancel_left, ← List.getD_eq_getElem?_getD]
          exact ih i j hi2 hj

lemma map_ravel_getD (f : ℚ × ℚ → ℚ) (xs ys : List ℚ) (i j : Nat)
    (hi : i < ys.length) (hj : j < xs.length) :
    ((ravelPoints xs ys).map f).getD (i * xs.length + j) 0 =
      f (xs.getD j 0, ys.getD i 0) := by
  have hidx : i * xs.length + j < (ravelPoints xs ys).length := by
    rw [ravelPoints_length]
    calc i * xs.length + j < i * xs.length + xs.length := by omega
      _ = (i + 1) * xs.length := by ring
      _ ≤ ys.length * xs.length := Nat.mul_le_mul_right _ hi
  rw [List.getD_eq_getElem?_getD, List.getElem?_map,
    List.getElem?_eq_getElem hidx, Option.map_some', Option.getD_some]
  congr 1
  have h := ravelPoints_getD xs ys i j hi hj
  rw [List.getD_eq_getElem?_getD, List.getElem?_eq_getElem hidx] at h
  simpa using h

lemma componentValues_getD (g : Nat → List ℚ) (m n : Nat) (h : n < m) :
    ((List.range m).map g).getD n [] = g n := by
  rw [List.getD_eq_getElem?_getD, List.getElem?_map, List.getElem?_range h]
  rfl

/-- C8: on a redraw the mixture log-density is evaluated at every point of
the Mesh (an array of exactly rows-times-columns values, the entry of row
i and column j being the score at grid point (xs j, ys i)) and every
component density is evaluated at every point of the Mesh; both scoring
functions return the estimator unchanged, plot_contours leaves the
estimator and the mesh untouched, and every redraw recomputes the same
values from scratch with no caching. -/
theorem C8_full_grid_and_pure (est : Estimator) (m : Nat) (xs ys : List ℚ) :
    ((plot_contours est m xs ys).1).length = ys.length * xs.length ∧
    (∀ i j, i < ys.length → j < xs.length →
      (plot_contours est m xs ys).1.getD (i * xs.length + j) 0 =
        (score_fn_dpgmm (xs.getD j 0, ys.getD i 0) est).1) ∧
    ((plot_contours est m xs ys).2.1).length = m ∧
    (∀ n, n < m → ∀ i j, i < ys.length → j < xs.length →
      (((plot_contours est m xs ys).2.1).getD n []).getD (i * xs.length + j) 0 =
        (score_fn_mvn (xs.getD j 0, ys.getD i 0) est n).1) ∧
    (∀ p, (score_fn_dpgmm p est).2 = est) ∧
    (∀ p n, (score_fn_mvn p est n).2 = est) ∧
    (plot_contours est m xs ys).2.2.1 = est ∧
    (plot_contours est m xs ys).2.2.2 = (xs, ys) ∧
    (∀ i₁ i₂ : Nat, redraw est m xs ys i₁ = redraw est m xs ys i₂) := by
  refine ⟨?_, ?_, ?_, ?_, fun p => rfl, fun p n => rfl, rfl, rfl,
    fun i₁ i₂ => rfl⟩
  · show ((ravelPoints xs ys).map _).length = _
    rw [List.length_map, ravelPoints_length]
  · intro i j hi hj
    exact map_ravel_getD (fun p => (score_fn_dpgmm p est).1) xs ys i j hi hj
  · show ((List.range m).map _).length = _
    rw [List.length_map, List.length_range]
  · intro n hn i j hi hj
    show (((List.range m).map
      (fun n => (ravelPoints xs ys).map (fun p => (score_fn_mvn p est n).1))).getD
        n []).getD (i * xs.length + j) 0 = _
    rw [componentValues_getD _ m n hn]
    exact map_ravel_getD (fun p => (score_fn_mvn p est n).1) xs ys i j hi hj

/-- Witness for C8 on the estimator with score p ↦ p.1 + p.2, component
density (n, p) ↦ n + p.1, mesh axes xs = [1, 2], ys = [3], at grid row 0
and column 1. -/
theorem C8_witness :
    (plot_contours
        (⟨fun p => p.1 + p.2, fun n p => (n : ℚ) + p.1⟩ : Estimator)
        2 [1, 2] [3]).1.getD (0 * ([1, 2] : List ℚ).length + 1) 0 =
      (score_fn_dpgmm (([1, 2] : List ℚ).getD 1 0, ([3] : List ℚ).getD 0 0)
        (⟨fun p => p.1 + p.2, fun n p => (n : ℚ) + p.1⟩ : Estimator)).1 :=
  (C8_full_grid_and_pure
    (⟨fun p => p.1 + p.2, fun n p => (n : ℚ) + p.1⟩ : Estimator)
    2 [1, 2] [3]).2.1 0 1 (by norm_num) (by norm_num)

end DemoDPGMM
